import Mathlib

/-
  Verification development for the CogniSentinel mental-health chatbot.

  The development shallowly embeds the emotion-detection and
  response-selection logic of the repository:
    - `emotion_detector.py`: the `EmotionDetector` class with its keyword
      fallback (`EMOTION_KEYWORDS`, `detect_emotion`, `_detect_with_keywords`);
    - `actions.py`: the static response tables (`THERAPY_TECHNIQUES`,
      `EMPATHETIC_RESPONSES`) and the action handlers
      (`ActionProcessMessage`, `ActionFallbackAPI`,
      `ActionSuggestCopingStrategy`).

  Modelling conventions:
    - Python dicts of lists become association lists `List (String × List String)`
      looked up with `lookupTable`; `d[k]` that may raise `KeyError` becomes
      `dictGet` returning `Except String`.
    - Python floats become `ℚ`.  The outcomes of the `random.random() < p`
      draws are injected as Booleans, and each `random.choice(l)` is modelled
      as selection of index `i % l.length` for an injected natural `i`
      (`random.choice` raises `IndexError` on an empty list, which `choiceE`
      reproduces).
    - Exceptions are modelled with `Except String`; a handler that can raise
      returns `Except String HandlerResult`, where `HandlerResult` carries the
      messages sent through the dispatcher and the returned event list.
    - Network calls are injected as an `ApiOutcome` (an exception, or a
      response with a status code, a flag for the presence of the field
      named choices, and a content string).
-/

/-- Does `pre` occur at the head of `l`?  (Char-list helper for the Python
substring test.) -/
def startsWithL : List Char → List Char → Bool
  | [], _ => true
  | _ :: _, [] => false
  | a :: as, b :: bs => a == b && startsWithL as bs

/-- Does `needle` occur as a contiguous sublist of `hay`?  This is the Python test
`needle in hay` on strings, on the underlying character lists. -/
def occursIn (needle : List Char) : List Char → Bool
  | [] => needle.isEmpty
  | c :: rest => startsWithL needle (c :: rest) || occursIn needle rest

/-- The Python `keyword in text` substring test. -/
def isSubstr (needle hay : String) : Bool := occursIn needle.data hay.data

/-- The Python `str.lower` (ASCII case folding, which is all the tables use). -/
def lowerStr (s : String) : String := ⟨s.data.map Char.toLower⟩

/-- The Python condition `not text or text.strip() == ""`: the text is empty or
whitespace-only. -/
def isBlank (text : String) : Bool := text.data.all (fun c => c.isWhitespace)

/-- Association-list lookup: the Python `d.get(k)` / `k in d` on the
insertion-ordered dicts below (all keys are distinct). -/
def lookupTable (t : List (String × List String)) (k : String) : Option (List String) :=
  match t with
  | [] => none
  | p :: rest => if p.1 = k then some p.2 else lookupTable rest k

/-- `EmotionDetector.EMOTION_KEYWORDS` from `emotion_detector.py`, in dict
insertion order. -/
def EMOTION_KEYWORDS : List (String × List String) :=
  [("joy", ["happy", "glad", "joy", "excited", "pleased", "delighted", "content",
            "cheerful", "thrilled", "wonderful"]),
   ("sadness", ["sad", "unhappy", "depressed", "down", "miserable", "heartbroken",
                "gloomy", "disappointed", "upset", "grief"]),
   ("anger", ["angry", "mad", "furious", "irritated", "annoyed", "frustrated",
              "outraged", "enraged", "hostile", "bitter"]),
   ("fear", ["afraid", "scared", "frightened", "terrified", "anxious", "worried",
             "nervous", "panicked", "stressed", "uneasy"]),
   ("neutral", ["okay", "fine", "neutral", "normal", "average", "so-so"])]

/-- `THERAPY_TECHNIQUES` from `actions.py`, in dict insertion order. -/
def THERAPY_TECHNIQUES : List (String × List String) :=
  [("sadness",
    ["Practice self-compassion by treating yourself with the same kindness you\x27d offer to a friend.",
     "Try journaling about your feelings to help process them.",
     "Engage in light physical activity like walking, which can help improve your mood.",
     "Connect with a supportive friend or family member.",
     "Remember that emotions are temporary and will pass with time."]),
   ("anger",
    ["Take deep breaths, counting to 10 before responding.",
     "Try the 5-4-3-2-1 grounding technique to calm your nervous system.",
     "Consider the situation from the other person\x27s perspective.",
     "Express your feelings using \x27I\x27 statements rather than accusations.",
     "Step away from the situation temporarily if possible to cool down."]),
   ("fear",
    ["Practice mindful breathing to center yourself in the present moment.",
     "Challenge catastrophic thinking by examining the evidence for your fears.",
     "Break overwhelming tasks into smaller, manageable steps.",
     "Visualize yourself successfully handling the situation you fear.",
     "Remember past situations where you successfully overcame your fears."]),
   ("joy",
    ["Savor this positive moment by being fully present in it.",
     "Express gratitude for the good things in your life.",
     "Share your happiness with others to strengthen connections.",
     "Reflect on what contributed to this positive feeling.",
     "Use this positive energy to tackle something challenging."]),
   ("neutral",
    ["Practice mindfulness to become more aware of your thoughts and feelings.",
     "Set small, achievable goals to create a sense of accomplishment.",
     "Explore activities that have brought you joy in the past.",
     "Consider starting a gratitude practice to notice positive aspects of your life.",
     "Take care of your physical needs like sleep, nutrition, and exercise."])]

/-- `EMPATHETIC_RESPONSES` from `actions.py`, in dict insertion order. -/
def EMPATHETIC_RESPONSES : List (String × List String) :=
  [("sadness",
    ["I hear that you\x27re feeling down right now. That\x27s completely valid, and I\x27m here to listen.",
     "It sounds like you\x27re going through a difficult time. Remember that it\x27s okay to feel sad sometimes.",
     "I\x27m sorry you\x27re feeling this way. Would it help to talk more about what\x27s troubling you?",
     "When we feel sad, it can be overwhelming. Let\x27s take it one step at a time together.",
     "I understand that sadness can feel heavy. You don\x27t have to carry that weight alone."]),
   ("anger",
    ["I can sense your frustration. It\x27s completely natural to feel angry sometimes.",
     "Your feelings are valid. Would it help to explore what\x27s behind this anger?",
     "It sounds like this situation has really upset you, and that\x27s understandable.",
     "Anger often comes from feeling unheard or disrespected. I\x27m here to listen to you.",
     "I appreciate you sharing these strong feelings with me. Let\x27s work through this together."]),
   ("fear",
    ["It\x27s okay to feel anxious or scared. These feelings are trying to protect you.",
     "I hear that you\x27re worried. Would it help to talk about what\x27s causing this fear?",
     "Feeling anxious can be really uncomfortable. You\x27re brave for acknowledging these feelings.",
     "When we\x27re afraid, our minds often focus on the worst possibilities. Let\x27s explore this together.",
     "Your concerns are valid. Let\x27s take a moment to breathe and think about this situation."]),
   ("joy",
    ["It\x27s wonderful to hear you\x27re feeling positive! Your happiness is important.",
     "I\x27m so glad things are going well for you. Would you like to share more about what\x27s bringing you joy?",
     "That sounds really positive! It\x27s great that you\x27re experiencing these good feelings.",
     "I\x27m happy to hear that! Celebrating these positive moments is important.",
     "Your positive energy is contagious. Thank you for sharing this happy moment."]),
   ("neutral",
    ["I\x27m here to support you, whatever you might be feeling right now.",
     "How are you feeling about everything that\x27s going on?",
     "I\x27m listening and here to help in any way I can.",
     "Would you like to explore any particular thoughts or feelings today?",
     "Sometimes taking a moment to check in with ourselves can be helpful. How are you really doing?"])]

/-- Number of keywords of one category that occur as substrings of the
(already lower-cased) text: the inner loop of `_detect_with_keywords`. -/
def countMatches (text : String) (kws : List String) : Nat :=
  (kws.filter (fun k => isSubstr k (lowerStr text))).length

/-- The `emotion_scores` dict of `_detect_with_keywords`: each category of
`EMOTION_KEYWORDS` paired with its keyword-match count. -/
def emotionScores (text : String) : List (String × Nat) :=
  EMOTION_KEYWORDS.map (fun p => (p.1, countMatches text p.2))

/-- The max-finding loop of `_detect_with_keywords`: starting from
`detected_emotion = "neutral"`, `max_score = 0`, update the accumulator
whenever a score is strictly greater than the running maximum. -/
def pickMaxAux : String × Nat → List (String × Nat) → String × Nat
  | acc, [] => acc
  | acc, (e, s) :: rest =>
      if acc.2 < s then pickMaxAux (e, s) rest else pickMaxAux acc rest

/-- `EmotionDetector._detect_with_keywords`: returns the winning category and
the confidence `min(0.9, 0.5 + (max_score / total_matches) * 0.4)` when any
keyword matched, else `0.5`. -/
def detectWithKeywords (text : String) : String × ℚ :=
  let scores := emotionScores text
  let best := pickMaxAux ("neutral", 0) scores
  let total := (scores.map Prod.snd).sum
  let confidence : ℚ :=
    if 0 < total then
      min (0.9 : ℚ) ((0.5 : ℚ) + ((best.2 : ℚ) / (total : ℚ)) * (0.4 : ℚ))
    else (0.5 : ℚ)
  (best.1, confidence)

/-- One label produced by the optional Flair model: a value string and a
score. -/
structure FlairLabel where
  value : String
  score : ℚ
deriving Repr, DecidableEq

/-- The observable outcome of the learned-model path of `detect_emotion`:
the model is absent (`emotion_model is None`), prediction raised an
exception, or prediction returned a list of labels (possibly empty). -/
inductive ModelOutcome where
  | noModel : ModelOutcome
  | exn : ModelOutcome
  | labels : List FlairLabel → ModelOutcome
deriving Repr, DecidableEq

/-- The dictionary returned by `EmotionDetector.detect_emotion`: emotion,
confidence and method are always present; `allEmotions` only on the Flair
path. -/
structure DetectionResult where
  emotion : String
  confidence : ℚ
  method : String
  allEmotions : Option (List (String × ℚ))
deriving Repr, DecidableEq

/-- `EmotionDetector.detect_emotion`: empty or whitespace-only text returns
the neutral default; a model outcome with at least one label returns the
Flair result; any failure of the model path (no model, exception, empty
label list) falls through to `_detect_with_keywords`. -/
def detect_emotion (m : ModelOutcome) (text : String) : DetectionResult :=
  if isBlank text then
    { emotion := "neutral", confidence := 0, method := "default", allEmotions := none }
  else
    match m with
    | ModelOutcome.labels (l :: rest) =>
        { emotion := lowerStr l.value, confidence := l.score, method := "flair",
          allEmotions := some ((l :: rest).map (fun lb => (lowerStr lb.value, lb.score))) }
    | _ =>
        let r := detectWithKeywords text
        { emotion := r.1, confidence := r.2, method := "keywords", allEmotions := none }

/-- The injected outcomes of the random draws a handler makes:
`below70`/`below50` are the outcomes of the `random.random() < 0.7` and
`random.random() < 0.5` comparisons, and `i1`, `i2`, `iF` index the
`random.choice` selections (predefined response, appended technique, and
the fallback choice inside the try/except). -/
structure RandDraws where
  below70 : Bool
  below50 : Bool
  i1 : Nat
  i2 : Nat
  iF : Nat
deriving Repr, DecidableEq

/-- The observable outcome of the remote text-generation POST: an exception
(request failure, timeout, or a body that fails to parse), or a response
with an HTTP status code, whether the parsed body has the field named
choices, and the content string of the first choice. -/
inductive ApiOutcome where
  | exn : ApiOutcome
  | ok : Nat → Bool → String → ApiOutcome
deriving Repr, DecidableEq

/-- What a handler run produces: the texts sent through
`dispatcher.utter_message`, in order, and the returned event list (each
`SlotSet(name, value)` as a pair). -/
structure HandlerResult where
  messages : List String
  events : List (String × String)
deriving Repr, DecidableEq

/-- The Python `random.choice(l)`: selects an element (modelled as index
`i % l.length` for the injected `i`), raising `IndexError` on an empty
list. -/
def choiceE (l : List String) (i : Nat) : Except String String :=
  match l.get? (i % l.length) with
  | some s => Except.ok s
  | none => Except.error "IndexError"

/-- The Python subscript `d[k]` on a response table: raises `KeyError` when `k` is not a
key. -/
def dictGet (t : List (String × List String)) (k : String) : Except String (List String) :=
  match lookupTable t k with
  | some l => Except.ok l
  | none => Except.error "KeyError"

/-- The try block of `ActionProcessMessage._call_fallback_api` (the code
between `try:` and `except`), producing the list of messages it utters or
the first exception it raises: the POST itself (injected as `api`), then on
HTTP 200 with choices present the remote content, and otherwise the
unchecked subscript `EMPATHETIC_RESPONSES[emotion]` followed by
`random.choice`. -/
def fallback_try_block (rand : RandDraws) (api : ApiOutcome) (emotion : String) :
    Except String (List String) :=
  match api with
  | ApiOutcome.exn => Except.error "RequestException"
  | ApiOutcome.ok status hasChoices content =>
    if status = 200 ∧ hasChoices then Except.ok [content]
    else
      match dictGet EMPATHETIC_RESPONSES emotion with
      | Except.error e => Except.error e
      | Except.ok l =>
        match choiceE l rand.iF with
        | Except.error e => Except.error e
        | Except.ok fb => Except.ok [fb]

/-- `ActionProcessMessage._call_fallback_api` from `actions.py`.  With the
70%-draw below threshold and the emotion a key of `EMPATHETIC_RESPONSES`,
it utters a predefined response (for sadness/anger/fear appending a random
technique on the 50% draw) and returns the slot update.  Otherwise it tries
the remote API: on HTTP 200 with choices present it utters the remote
content; on any other response it picks a random empathetic response inside
the try block; on any exception caught by the except block it picks a
random empathetic response there.  In both of the last two paths
`EMPATHETIC_RESPONSES[emotion]` is an unchecked subscript, so an emotion
that is not a key raises `KeyError` out of the handler (a `KeyError` raised
inside the try block is caught once, and re-raised by the same subscript in
the except block). -/
def call_fallback_api (rand : RandDraws) (api : ApiOutcome) (message emotion : String) :
    Except String HandlerResult :=
  if rand.below70 && (lookupTable EMPATHETIC_RESPONSES emotion).isSome then
    match dictGet EMPATHETIC_RESPONSES emotion with
    | Except.error e => Except.error e
    | Except.ok l =>
      match choiceE l rand.i1 with
      | Except.error e => Except.error e
      | Except.ok response =>
        if (emotion = "sadness" ∨ emotion = "anger" ∨ emotion = "fear") ∧ rand.below50 then
          match dictGet THERAPY_TECHNIQUES emotion with
          | Except.error e => Except.error e
          | Except.ok tl =>
            match choiceE tl rand.i2 with
            | Except.error e => Except.error e
            | Except.ok technique =>
              Except.ok
                { messages := [response ++ "\n\nHere\x27s a technique that might help: " ++ technique],
                  events := [("detected_emotion", emotion)] }
        else
          Except.ok { messages := [response], events := [("detected_emotion", emotion)] }
  else
    match fallback_try_block rand api emotion with
    | Except.ok msgs =>
        Except.ok { messages := msgs, events := [("detected_emotion", emotion)] }
    | Except.error _ =>
        match dictGet EMPATHETIC_RESPONSES emotion with
        | Except.error e => Except.error e
        | Except.ok l =>
          match choiceE l rand.iF with
          | Except.error e => Except.error e
          | Except.ok fb =>
              Except.ok { messages := [fb], events := [("detected_emotion", emotion)] }

/-- `ActionProcessMessage.run` from `actions.py`: detects the emotion of the
latest message, then branches on the intent confidence — below 0.3 it
delegates to `_call_fallback_api`, otherwise it only stores the emotion in
the `detected_emotion` slot.  (The source also computes an unused
emotion-specific response string via `get_response_for_emotion`; it has no
observable effect and is not modelled.) -/
def actionProcessMessage_run (rand : RandDraws) (api : ApiOutcome) (m : ModelOutcome)
    (latest_message : String) (confidence : ℚ) : Except String HandlerResult :=
  if confidence < (0.3 : ℚ) then
    call_fallback_api rand api latest_message (detect_emotion m latest_message).emotion
  else
    Except.ok
      { messages := [],
        events := [("detected_emotion", (detect_emotion m latest_message).emotion)] }

/-- The body of `ActionFallbackAPI.run` after emotion detection, as a
function of the detected emotion: same 70% predefined-response gate as
`_call_fallback_api` (without the technique append), but on API failure it
utters fixed generic strings instead of indexing the empathetic table:
non-success responses get the could-you-rephrase message inside the try
block, and exceptions get the trouble-processing message in the except
block.  Every branch returns the `detected_emotion` slot update. -/
def actionFallbackAPI_core (rand : RandDraws) (api : ApiOutcome) (emotion : String) :
    Except String HandlerResult :=
  if rand.below70 && (lookupTable EMPATHETIC_RESPONSES emotion).isSome then
    match dictGet EMPATHETIC_RESPONSES emotion with
    | Except.error e => Except.error e
    | Except.ok l =>
      match choiceE l rand.i1 with
      | Except.error e => Except.error e
      | Except.ok response =>
          Except.ok { messages := [response], events := [("detected_emotion", emotion)] }
  else
    match api with
    | ApiOutcome.exn =>
        Except.ok
          { messages := ["I\x27m having trouble processing your request right now. Let\x27s try something else."],
            events := [("detected_emotion", emotion)] }
    | ApiOutcome.ok status hasChoices content =>
        if status = 200 ∧ hasChoices then
          Except.ok { messages := [content], events := [("detected_emotion", emotion)] }
        else
          Except.ok
            { messages := ["I\x27m not sure how to respond to that. Could you rephrase or ask something else?"],
              events := [("detected_emotion", emotion)] }

/-- `ActionFallbackAPI.run` from `actions.py`: detect the emotion of the
latest message and run the response-selection body on it. -/
def actionFallbackAPI_run (rand : RandDraws) (api : ApiOutcome) (m : ModelOutcome)
    (latest_message : String) : Except String HandlerResult :=
  actionFallbackAPI_core rand api (detect_emotion m latest_message).emotion

/-- The `emotion_mapping` dict of `ActionSuggestCopingStrategy.run`. -/
def emotion_mapping : List (String × String) :=
  [("sad", "sadness"), ("angry", "anger"), ("anxious", "fear"),
   ("afraid", "fear"), ("happy", "joy"), ("excited", "joy")]

/-- Association-list lookup for `emotion_mapping` (the Python call
`emotion_mapping.get(k, default)` with the key itself as default is
`(lookupSyn k).getD k`). -/
def lookupSyn (k : String) : Option String :=
  (emotion_mapping.find? (fun p => p.1 == k)).map Prod.snd

/-- The emotion `ActionSuggestCopingStrategy.run` ends up using: the slot
value (the Python `or "neutral"` treats a missing slot and the empty string
as falsy), sent through `emotion_mapping` with the value itself as default,
then replaced by neutral when it is not a key of `THERAPY_TECHNIQUES`. -/
def mappedEmotionOf (slot : Option String) : String :=
  let current_emotion :=
    match slot with
    | none => "neutral"
    | some s => if s = "" then "neutral" else s
  let mapped := (lookupSyn current_emotion).getD current_emotion
  if (lookupTable THERAPY_TECHNIQUES mapped).isNone then "neutral" else mapped

/-- The fixed if/else ladder of `ActionSuggestCopingStrategy.run` choosing
the introduction for the mapped emotion. -/
def introFor (mapped : String) : String :=
  if mapped = "sadness" then "When you\x27re feeling down, it can help to:"
  else if mapped = "anger" then "To manage feelings of frustration or anger, you might try:"
  else if mapped = "fear" then "When anxiety or fear arises, this technique can be helpful:"
  else if mapped = "joy" then "To build on these positive feelings, consider:"
  else "Here\x27s a helpful technique you might want to try:"

/-- `ActionSuggestCopingStrategy.run` from `actions.py`: reads the
`detected_emotion` slot (defaulting to neutral), normalizes it, picks a
random technique for the mapped emotion, utters it with the introduction,
and returns an empty event list. -/
def suggestCopingStrategy_run (rand : RandDraws) (slot : Option String) :
    Except String HandlerResult :=
  match dictGet THERAPY_TECHNIQUES (mappedEmotionOf slot) with
  | Except.error e => Except.error e
  | Except.ok l =>
    match choiceE l rand.i1 with
    | Except.error e => Except.error e
    | Except.ok strategy =>
        Except.ok
          { messages := [introFor (mappedEmotionOf slot) ++ "\n\n" ++ strategy],
            events := [] }

/-- The maximum keyword count over a score list (0 for the empty list). -/
def listMax (l : List (String × Nat)) : Nat := (l.map Prod.snd).foldr max 0

/-- The winner as the spec describes it: the category with the strictly
highest count, ties broken by iteration order (the first entry attaining
the maximum), defaulting to neutral when every count is zero. -/
def specKeywordWinner (text : String) : String :=
  let scores := emotionScores text
  if listMax scores = 0 then "neutral"
  else ((scores.find? (fun p => p.2 == listMax scores)).getD ("neutral", 0)).1

/-- The confidence as the spec describes it:
`min(0.9, 0.5 + (winning_count / total_matches) * 0.4)` when any keyword
matched, else a flat `0.5`, with the winning count being the maximum
count. -/
def specConfidence (text : String) : ℚ :=
  let scores := emotionScores text
  let total := (scores.map Prod.snd).sum
  if 0 < total then
    min (0.9 : ℚ) ((0.5 : ℚ) + ((listMax scores : ℚ) / (total : ℚ)) * (0.4 : ℚ))
  else (0.5 : ℚ)

/-- Whether the remote text-generation call counts as a failure in the
handlers: an exception, or a response that is not HTTP 200 with the field
named choices present. -/
def apiFails : ApiOutcome → Prop
  | ApiOutcome.exn => True
  | ApiOutcome.ok status hasChoices _ => ¬ (status = 200 ∧ hasChoices = true)

lemma listMax_cons (e : String) (s : Nat) (tl : List (String × Nat)) :
    listMax ((e, s) :: tl) = max s (listMax tl) := rfl

lemma exists_of_listMax_pos (l : List (String × Nat)) (h : 0 < listMax l) :
    ∃ p ∈ l, p.2 = listMax l := by
  induction l with
  | nil => simp [listMax] at h
  | cons hd tl ih =>
      obtain ⟨e, s⟩ := hd
      rw [listMax_cons] at h ⊢
      rcases Nat.le_total (listMax tl) s with hle | hle
      · exact ⟨(e, s), List.mem_cons_self _ _, (Nat.max_eq_left hle).symm⟩
      · rcases Nat.eq_or_lt_of_le hle with heq | hlt
        · exact ⟨(e, s), List.mem_cons_self _ _, by omega⟩
        · have hpos : 0 < listMax tl := by omega
          obtain ⟨p, hp, hp2⟩ := ih hpos
          exact ⟨p, List.mem_cons_of_mem _ hp, by rw [hp2]; omega⟩

lemma find?_listMax_isSome (l : List (String × Nat)) (h : 0 < listMax l) :
    (l.find? (fun p => p.2 == listMax l)).isSome := by
  rw [List.find?_isSome]
  obtain ⟨p, hp, hp2⟩ := exists_of_listMax_pos l h
  exact ⟨p, hp, by simp [hp2]⟩

/-- The max-finding loop returns the accumulator unless some score strictly
exceeds it, in which case it returns the first entry attaining the overall
maximum. -/
lemma pickMaxAux_eq (l : List (String × Nat)) : ∀ acc : String × Nat,
    pickMaxAux acc l =
      if acc.2 < listMax l then (l.find? (fun p => p.2 == listMax l)).getD acc
      else acc := by
  induction l with
  | nil =>
      intro acc
      simp [pickMaxAux, listMax]
  | cons hd tl ih =>
      intro acc
      obtain ⟨e, s⟩ := hd
      rw [listMax_cons]
      by_cases h1 : acc.2 < s
      · have hstep : pickMaxAux acc ((e, s) :: tl) = pickMaxAux (e, s) tl := by
          simp [pickMaxAux, h1]
        rw [hstep, ih (e, s)]
        by_cases h2 : s < listMax tl
        · have hmax : max s (listMax tl) = listMax tl := Nat.max_eq_right (Nat.le_of_lt h2)
          have hacc : acc.2 < max s (listMax tl) := by omega
          rw [if_pos h2, if_pos hacc, hmax, List.find?_cons]
          have hne : ((e, s).2 == listMax tl) = false := by simp; omega
          rw [hne]
          have hsome := find?_listMax_isSome tl (by omega)
          obtain ⟨v, hv⟩ := Option.isSome_iff_exists.mp hsome
          rw [hv]
          rfl
        · have hmax : max s (listMax tl) = s := Nat.max_eq_left (by omega)
          rw [if_neg h2, hmax, if_pos h1, List.find?_cons]
          have heq : ((e, s).2 == s) = true := by simp
          rw [heq]
          rfl
      · have hstep : pickMaxAux acc ((e, s) :: tl) = pickMaxAux acc tl := by
          simp [pickMaxAux, h1]
        rw [hstep, ih acc]
        by_cases h2 : acc.2 < listMax tl
        · have hmax : max s (listMax tl) = listMax tl := Nat.max_eq_right (by omega)
          have hacc : acc.2 < max s (listMax tl) := by omega
          rw [if_pos h2, if_pos hacc, hmax, List.find?_cons]
          have hne : ((e, s).2 == listMax tl) = false := by simp; omega
          rw [hne]
        · have hacc : ¬ acc.2 < max s (listMax tl) := by omega
          rw [if_neg h2, if_neg hacc]

/-- The second component of the max-finding loop started from the initial
accumulator of the source is the maximum score. -/
lemma pickMax_snd (scores : List (String × Nat)) :
    (pickMaxAux ("neutral", 0) scores).2 = listMax scores := by
  rw [pickMaxAux_eq]
  by_cases h : (("neutral", 0) : String × Nat).2 < listMax scores
  · rw [if_pos h]
    have hsome := find?_listMax_isSome scores (by simpa using h)
    obtain ⟨v, hv⟩ := Option.isSome_iff_exists.mp hsome
    have := List.find?_some hv
    rw [hv]
    simpa using this
  · rw [if_neg h]
    simp at h ⊢
    omega

/-- The winning emotion of `_detect_with_keywords` is exactly the
spec-described winner. -/
lemma detectWithKeywords_fst (text : String) :
    (detectWithKeywords text).1 = specKeywordWinner text := by
  have hL : (detectWithKeywords text).1 =
      (pickMaxAux ("neutral", 0) (emotionScores text)).1 := rfl
  rw [hL, pickMaxAux_eq]
  unfold specKeywordWinner
  by_cases h0 : listMax (emotionScores text) = 0
  · have hlt : ¬ (("neutral", 0) : String × Nat).2 < listMax (emotionScores text) := by
      simp [h0]
    rw [if_neg hlt]
    simp [h0]
  · have hlt : (("neutral", 0) : String × Nat).2 < listMax (emotionScores text) := by
      simp
      omega
    rw [if_pos hlt]
    simp [h0]

/-- The confidence of `_detect_with_keywords` is exactly the spec-described
confidence. -/
lemma detectWithKeywords_snd (text : String) :
    (detectWithKeywords text).2 = specConfidence text := by
  have hL : (detectWithKeywords text).2 =
      (if 0 < ((emotionScores text).map Prod.snd).sum then
        min (0.9 : ℚ)
          ((0.5 : ℚ) +
            (((pickMaxAux ("neutral", 0) (emotionScores text)).2 : ℚ) /
              ((((emotionScores text).map Prod.snd).sum : Nat) : ℚ)) * (0.4 : ℚ))
      else (0.5 : ℚ)) := rfl
  rw [hL, pickMax_snd]
  rfl

lemma lookupTable_mem {t : List (String × List String)} {k : String} {l : List String}
    (h : lookupTable t k = some l) : (k, l) ∈ t := by
  induction t with
  | nil => simp [lookupTable] at h
  | cons p rest ih =>
      unfold lookupTable at h
      by_cases hk : p.1 = k
      · rw [if_pos hk] at h
        have hp2 : p.2 = l := by injection h
        have : p = (k, l) := by
          obtain ⟨a, b⟩ := p
          simp at hk hp2
          rw [hk, hp2]
        rw [← this]
        exact List.mem_cons_self _ _
      · rw [if_neg hk] at h
        exact List.mem_cons_of_mem _ (ih h)

/-- `random.choice` on a nonempty list succeeds and yields an element of the
list. -/
lemma choiceE_mem (l : List String) (i : Nat) (h : l ≠ []) :
    ∃ s, choiceE l i = Except.ok s ∧ s ∈ l := by
  have hlen : 0 < l.length := List.length_pos.mpr h
  have hidx : i % l.length < l.length := Nat.mod_lt _ hlen
  have hs : l.get? (i % l.length) = some (l.get ⟨i % l.length, hidx⟩) :=
    List.get?_eq_get hidx
  refine ⟨l.get ⟨i % l.length, hidx⟩, ?_, List.get_mem l _ _⟩
  unfold choiceE
  rw [hs]

/-- Every list of empathetic responses in the table is nonempty. -/
lemma EMPATHETIC_values_ne_nil : ∀ p ∈ EMPATHETIC_RESPONSES, p.2 ≠ [] := by decide

/-- Every list of therapy techniques in the table is nonempty. -/
lemma THERAPY_values_ne_nil : ∀ p ∈ THERAPY_TECHNIQUES, p.2 ≠ [] := by decide

lemma lookupEMPATHETIC_ne_nil {k : String} {l : List String}
    (h : lookupTable EMPATHETIC_RESPONSES k = some l) : l ≠ [] :=
  EMPATHETIC_values_ne_nil _ (lookupTable_mem h)

lemma lookupTHERAPY_ne_nil {k : String} {l : List String}
    (h : lookupTable THERAPY_TECHNIQUES k = some l) : l ≠ [] :=
  THERAPY_values_ne_nil _ (lookupTable_mem h)

lemma lookupTHERAPY_sad_anger_fear (emotion : String)
    (h : emotion = "sadness" ∨ emotion = "anger" ∨ emotion = "fear") :
    ∃ tl, lookupTable THERAPY_TECHNIQUES emotion = some tl ∧ tl ≠ [] := by
  rcases h with h | h | h <;> subst h <;> exact ⟨_, rfl, by decide⟩

/-- `_call_fallback_api` completes without raising whenever the detected
emotion is a key of `EMPATHETIC_RESPONSES`, and in that case its returned
event list is exactly the `detected_emotion` slot update. -/
lemma call_fallback_api_ok (rand : RandDraws) (api : ApiOutcome) (message emotion : String)
    (h : (lookupTable EMPATHETIC_RESPONSES emotion).isSome) :
    ∃ hr, call_fallback_api rand api message emotion = Except.ok hr ∧
      hr.events = [("detected_emotion", emotion)] := by
  obtain ⟨l, hl⟩ := Option.isSome_iff_exists.mp h
  have hlne := lookupEMPATHETIC_ne_nil hl
  have hdg : dictGet EMPATHETIC_RESPONSES emotion = Except.ok l := by
    unfold dictGet
    rw [hl]
  unfold call_fallback_api
  by_cases hb : (rand.below70 && (lookupTable EMPATHETIC_RESPONSES emotion).isSome) = true
  · rw [if_pos hb, hdg]
    dsimp only
    obtain ⟨s, hs, _⟩ := choiceE_mem l rand.i1 hlne
    rw [hs]
    dsimp only
    by_cases hc : (emotion = "sadness" ∨ emotion = "anger" ∨ emotion = "fear") ∧ rand.below50 = true
    · rw [if_pos hc]
      obtain ⟨tl, htl, htlne⟩ := lookupTHERAPY_sad_anger_fear emotion hc.1
      have hdg2 : dictGet THERAPY_TECHNIQUES emotion = Except.ok tl := by
        unfold dictGet
        rw [htl]
      rw [hdg2]
      dsimp only
      obtain ⟨t, ht, _⟩ := choiceE_mem tl rand.i2 htlne
      rw [ht]
      exact ⟨_, rfl, rfl⟩
    · rw [if_neg hc]
      exact ⟨_, rfl, rfl⟩
  · rw [if_neg hb]
    cases hfb : fallback_try_block rand api emotion with
    | ok msgs => exact ⟨_, rfl, rfl⟩
    | error e =>
        dsimp only
        rw [hdg]
        dsimp only
        obtain ⟨s, hs, _⟩ := choiceE_mem l rand.iF hlne
        rw [hs]
        exact ⟨_, rfl, rfl⟩

/-- On the remote path (70% draw not taken) with a failing API call,
`_call_fallback_api` utters exactly one message, drawn from the empathetic
list of the detected emotion, and returns the slot update. -/
lemma call_fallback_api_failure (rand : RandDraws) (api : ApiOutcome)
    (message emotion : String) {l : List String}
    (hb : rand.below70 = false)
    (hl : lookupTable EMPATHETIC_RESPONSES emotion = some l)
    (hfail : apiFails api) :
    ∃ s ∈ l, call_fallback_api rand api message emotion =
      Except.ok { messages := [s], events := [("detected_emotion", emotion)] } := by
  have hlne := lookupEMPATHETIC_ne_nil hl
  have hdg : dictGet EMPATHETIC_RESPONSES emotion = Except.ok l := by
    unfold dictGet
    rw [hl]
  have hbfalse : (rand.below70 && (lookupTable EMPATHETIC_RESPONSES emotion).isSome) = false := by
    rw [hb]
    rfl
  unfold call_fallback_api
  rw [hbfalse]
  simp only [Bool.false_eq_true, if_false]
  obtain ⟨s, hs, hsm⟩ := choiceE_mem l rand.iF hlne
  cases api with
  | exn =>
      have hfb : fallback_try_block rand ApiOutcome.exn emotion =
          Except.error "RequestException" := rfl
      rw [hfb]
      dsimp only
      rw [hdg]
      dsimp only
      rw [hs]
      exact ⟨s, hsm, rfl⟩
  | ok status hasChoices content =>
      have hns : ¬ (status = 200 ∧ hasChoices = true) := hfail
      have hfb : fallback_try_block rand (ApiOutcome.ok status hasChoices content) emotion =
          Except.ok [s] := by
        unfold fallback_try_block
        dsimp only
        rw [if_neg hns, hdg]
        dsimp only
        rw [hs]
      rw [hfb]
      exact ⟨s, hsm, rfl⟩

lemma listMax_cons2 (a : String × Nat) (rest : List (String × Nat)) :
    listMax (a :: rest) = max a.2 (listMax rest) := rfl

lemma mem_le_listMax {l : List (String × Nat)} {p : String × Nat} (h : p ∈ l) :
    p.2 ≤ listMax l := by
  induction l with
  | nil => cases h
  | cons a rest ih =>
      rw [listMax_cons2]
      rcases List.mem_cons.mp h with h | h
      · rw [h]
        exact Nat.le_max_left _ _
      · exact Nat.le_trans (ih h) (Nat.le_max_right _ _)

lemma listMax_le {l : List (String × Nat)} {n : Nat} (h : ∀ p ∈ l, p.2 ≤ n) :
    listMax l ≤ n := by
  induction l with
  | nil => exact Nat.zero_le n
  | cons a rest ih =>
      rw [listMax_cons2]
      exact Nat.max_le.mpr ⟨h a (List.mem_cons_self _ _),
        ih (fun p hp => h p (List.mem_cons_of_mem _ hp))⟩

lemma sum_entries_zero {l : List (String × Nat)} (h : ∀ p ∈ l, p.2 = 0) :
    (l.map Prod.snd).sum = 0 := by
  induction l with
  | nil => rfl
  | cons a rest ih =>
      simp only [List.map_cons, List.sum_cons]
      rw [h a (List.mem_cons_self _ _), ih (fun p hp => h p (List.mem_cons_of_mem _ hp))]

lemma key_unique {l : List (String × Nat)} (hnd : (l.map Prod.fst).Nodup)
    {p q : String × Nat} (hp : p ∈ l) (hq : q ∈ l) (h : p.1 = q.1) : p = q :=
  List.inj_on_of_nodup_map hnd hp hq h

lemma sum_eq_of_unique {l : List (String × Nat)} {p : String × Nat}
    (hp : p ∈ l) (hnd : (l.map Prod.fst).Nodup)
    (h0 : ∀ q ∈ l, q.1 ≠ p.1 → q.2 = 0) : (l.map Prod.snd).sum = p.2 := by
  induction l with
  | nil => cases hp
  | cons a rest ih =>
      simp only [List.map_cons, List.sum_cons]
      have hnd' : (rest.map Prod.fst).Nodup := (List.nodup_cons.mp hnd).2
      have hnotin : a.1 ∉ rest.map Prod.fst := (List.nodup_cons.mp hnd).1
      rcases List.mem_cons.mp hp with hpa | hpr
      · subst hpa
        have hz : ∀ q ∈ rest, q.2 = 0 := by
          intro q hq
          have hqfst : q.1 ∈ rest.map Prod.fst := List.mem_map_of_mem _ hq
          have : q.1 ≠ p.1 := fun he => hnotin (he ▸ hqfst)
          exact h0 q (List.mem_cons_of_mem _ hq) this
        rw [sum_entries_zero hz]
        omega
      · have hafst : a.1 ≠ p.1 := by
          intro he
          exact hnotin (he ▸ List.mem_map_of_mem _ hpr)
        rw [h0 a (List.mem_cons_self _ _) hafst]
        rw [ih hpr hnd' (fun q hq hne => h0 q (List.mem_cons_of_mem _ hq) hne)]
        omega

lemma sum_eq_of_two {l : List (String × Nat)} {p q : String × Nat}
    (hp : p ∈ l) (hq : q ∈ l) (hne : p.1 ≠ q.1) (hnd : (l.map Prod.fst).Nodup)
    (h0 : ∀ r ∈ l, r.1 ≠ p.1 → r.1 ≠ q.1 → r.2 = 0) :
    (l.map Prod.snd).sum = p.2 + q.2 := by
  induction l with
  | nil => cases hp
  | cons a rest ih =>
      simp only [List.map_cons, List.sum_cons]
      have hnd' : (rest.map Prod.fst).Nodup := (List.nodup_cons.mp hnd).2
      have hnotin : a.1 ∉ rest.map Prod.fst := (List.nodup_cons.mp hnd).1
      rcases List.mem_cons.mp hp with hpa | hpr
      · subst hpa
        have hqr : q ∈ rest := by
          rcases List.mem_cons.mp hq with hqa | hqr
          · exact (hne (by rw [hqa])).elim
          · exact hqr
        have hrest : (rest.map Prod.snd).sum = q.2 := by
          apply sum_eq_of_unique hqr hnd'
          intro r hr hrne
          have hrfst : r.1 ∈ rest.map Prod.fst := List.mem_map_of_mem _ hr
          have : r.1 ≠ p.1 := fun he => hnotin (he ▸ hrfst)
          exact h0 r (List.mem_cons_of_mem _ hr) this hrne
        rw [hrest]
      · rcases List.mem_cons.mp hq with hqa | hqr
        · subst hqa
          have hrest : (rest.map Prod.snd).sum = p.2 := by
            apply sum_eq_of_unique hpr hnd'
            intro r hr hrne
            have hrfst : r.1 ∈ rest.map Prod.fst := List.mem_map_of_mem _ hr
            have : r.1 ≠ q.1 := fun he => hnotin (he ▸ hrfst)
            exact h0 r (List.mem_cons_of_mem _ hr) hrne this
          rw [hrest]
          omega
        · have hafst1 : a.1 ≠ p.1 := by
            intro he
            exact hnotin (he ▸ List.mem_map_of_mem _ hpr)
          have hafst2 : a.1 ≠ q.1 := by
            intro he
            exact hnotin (he ▸ List.mem_map_of_mem _ hqr)
          rw [h0 a (List.mem_cons_self _ _) hafst1 hafst2]
          rw [ih hpr hqr hnd' (fun r hr h1 h2 => h0 r (List.mem_cons_of_mem _ hr) h1 h2)]
          omega

/-- The categories of the score list, in iteration order. -/
lemma emotionScores_keys (text : String) :
    (emotionScores text).map Prod.fst =
      (["joy", "sadness", "anger", "fear", "neutral"] : List String) := rfl

lemma emotionScores_keys_nodup (text : String) :
    ((emotionScores text).map Prod.fst).Nodup := by
  rw [emotionScores_keys]
  decide

/-- When one category has a positive count and every other category counts
zero, the keyword winner is that category. -/
lemma winner_of_unique_count (text : String) {p : String × Nat}
    (hp : p ∈ emotionScores text) (hpos : 0 < p.2)
    (h0 : ∀ q ∈ emotionScores text, q.1 ≠ p.1 → q.2 = 0) :
    (detectWithKeywords text).1 = p.1 := by
  rw [detectWithKeywords_fst]
  unfold specKeywordWinner
  have hmax : listMax (emotionScores text) = p.2 := by
    apply Nat.le_antisymm
    · apply listMax_le
      intro q hq
      by_cases hqe : q.1 = p.1
      · rw [key_unique (emotionScores_keys_nodup text) hq hp hqe]
      · rw [h0 q hq hqe]
        exact Nat.zero_le _
    · exact mem_le_listMax hp
  have hne : ¬ listMax (emotionScores text) = 0 := by omega
  rw [if_neg hne]
  have hsome := find?_listMax_isSome (emotionScores text) (by omega)
  obtain ⟨v, hv⟩ := Option.isSome_iff_exists.mp hsome
  rw [hv]
  have hvmem := List.mem_of_find?_eq_some hv
  have hveq : v.2 = listMax (emotionScores text) := by simpa using List.find?_some hv
  have hv1 : v.1 = p.1 := by
    by_contra hvp
    have := h0 v hvmem hvp
    omega
  simpa using hv1

/-- The keyword winner is always one of the five table categories. -/
lemma winner_mem_labels (text : String) :
    (detectWithKeywords text).1 ∈ (["joy", "sadness", "anger", "fear", "neutral"] : List String) := by
  rw [detectWithKeywords_fst]
  unfold specKeywordWinner
  by_cases h0 : listMax (emotionScores text) = 0
  · rw [if_pos h0]
    decide
  · rw [if_neg h0]
    have hsome := find?_listMax_isSome (emotionScores text) (Nat.pos_of_ne_zero h0)
    obtain ⟨v, hv⟩ := Option.isSome_iff_exists.mp hsome
    rw [hv]
    have hvmem := List.mem_of_find?_eq_some hv
    have hmem : v.1 ∈ (emotionScores text).map Prod.fst := List.mem_map_of_mem _ hvmem
    rw [emotionScores_keys] at hmem
    simpa using hmem

/-- C4: for every input text that is empty or whitespace-only, and whatever
the state of the learned model, `detect_emotion` returns exactly
`{emotion: neutral, confidence: 0.0, method: default}` and performs no
model or keyword processing. -/
theorem claim_C4_blank_input (m : ModelOutcome) (text : String)
    (h : isBlank text = true) :
    detect_emotion m text =
      { emotion := "neutral", confidence := 0, method := "default", allEmotions := none } := by
  unfold detect_emotion
  rw [if_pos h]

/-- Witness for C4 at the whitespace-only text of three spaces. -/
theorem claim_C4_witness :
    isBlank "   " = true
    ∧ detect_emotion ModelOutcome.noModel "   " =
        { emotion := "neutral", confidence := 0, method := "default", allEmotions := none } :=
  ⟨by decide, claim_C4_blank_input ModelOutcome.noModel "   " (by decide)⟩

/-- C2: for every input text and every outcome of the learned-model path,
`detect_emotion` returns a result whose method tag is one of default,
flair, keywords; and every failure of the model path (no model, inference
exception, empty label list) yields exactly the same result as having no
model at all, i.e. falls through to the keyword path instead of
propagating. -/
theorem claim_C2_detect_total_fallback (m : ModelOutcome) (text : String) :
    (detect_emotion m text).method ∈ (["default", "flair", "keywords"] : List String)
    ∧ ((m = ModelOutcome.noModel ∨ m = ModelOutcome.exn ∨ m = ModelOutcome.labels []) →
        detect_emotion m text = detect_emotion ModelOutcome.noModel text) := by
  constructor
  · unfold detect_emotion
    by_cases h : isBlank text = true
    · rw [if_pos h]
      simp
    · rw [if_neg h]
      cases m with
      | noModel => simp
      | exn => simp
      | labels ls =>
          cases ls with
          | nil => simp
          | cons a b => simp
  · rintro (h | h | h) <;> subst h <;> rfl

/-- Witness for C2: an inference exception on the text hello falls through
to the keyword path. -/
theorem claim_C2_witness :
    (detect_emotion ModelOutcome.exn "hello").method ∈ (["default", "flair", "keywords"] : List String)
    ∧ detect_emotion ModelOutcome.exn "hello" = detect_emotion ModelOutcome.noModel "hello" :=
  ⟨(claim_C2_detect_total_fallback ModelOutcome.exn "hello").1,
   (claim_C2_detect_total_fallback ModelOutcome.exn "hello").2 (Or.inr (Or.inl rfl))⟩

/-- C5: the keyword fallback scores the categories in iteration order joy,
sadness, anger, fear, neutral; the returned category is the first one
attaining the strictly highest count, defaulting to neutral when every
count is zero (`specKeywordWinner`); and for text with exactly one keyword
match in one category and none in the others, that category is returned. -/
theorem claim_C5_keyword_winner (text : String) :
    (emotionScores text).map Prod.fst = (["joy", "sadness", "anger", "fear", "neutral"] : List String)
    ∧ (detectWithKeywords text).1 = specKeywordWinner text
    ∧ (∀ cat kws, (cat, kws) ∈ EMOTION_KEYWORDS →
        countMatches text kws = 1 →
        (∀ q ∈ EMOTION_KEYWORDS, q.1 ≠ cat → countMatches text q.2 = 0) →
        (detectWithKeywords text).1 = cat) := by
  refine ⟨rfl, detectWithKeywords_fst text, ?_⟩
  intro cat kws hmem h1 h0
  have hp : (cat, countMatches text kws) ∈ emotionScores text :=
    List.mem_map_of_mem (fun p => (p.1, countMatches text p.2)) hmem
  apply winner_of_unique_count text hp
  · simpa using Nat.lt_of_lt_of_eq Nat.zero_lt_one h1.symm
  · intro q hq hq1
    obtain ⟨r, hr, rfl⟩ := List.mem_map.mp hq
    exact h0 r hr (by simpa using hq1)

/-- Witness for C5: the text I feel happy has exactly one joy keyword and
no other, and the keyword winner is joy. -/
theorem claim_C5_witness :
    (detectWithKeywords "I feel happy").1 = "joy" :=
  (claim_C5_keyword_winner "I feel happy").2.2 "joy"
    ["happy", "glad", "joy", "excited", "pleased", "delighted", "content",
     "cheerful", "thrilled", "wonderful"]
    (by decide) (by decide) (by decide)

/-- C6: the keyword-fallback confidence is
`min(0.9, 0.5 + (winning_count / total_matches) * 0.4)` when any keyword
matched and `0.5` otherwise (`specConfidence`); with category counts 3 and
1 it equals 0.8, and with a single category counting 2 and all others 0 it
equals 0.9. -/
theorem claim_C6_confidence (text : String) :
    (detectWithKeywords text).2 = specConfidence text
    ∧ (∀ pa pb, pa ∈ emotionScores text → pb ∈ emotionScores text → pa.1 ≠ pb.1 →
        pa.2 = 3 → pb.2 = 1 →
        (∀ q ∈ emotionScores text, q.1 ≠ pa.1 → q.1 ≠ pb.1 → q.2 = 0) →
        (detectWithKeywords text).2 = (0.8 : ℚ))
    ∧ (∀ p, p ∈ emotionScores text → p.2 = 2 →
        (∀ q ∈ emotionScores text, q.1 ≠ p.1 → q.2 = 0) →
        (detectWithKeywords text).2 = (0.9 : ℚ)) := by
  refine ⟨detectWithKeywords_snd text, ?_, ?_⟩
  · intro pa pb hpa hpb hne h3 h1 h0
    rw [detectWithKeywords_snd]
    have hsum : ((emotionScores text).map Prod.snd).sum = 4 := by
      rw [sum_eq_of_two hpa hpb hne (emotionScores_keys_nodup text) h0, h3, h1]
    have hmax : listMax (emotionScores text) = 3 := by
      apply Nat.le_antisymm
      · apply listMax_le
        intro q hq
        by_cases hqa : q.1 = pa.1
        · rw [key_unique (emotionScores_keys_nodup text) hq hpa hqa, h3]
        · by_cases hqb : q.1 = pb.1
          · rw [key_unique (emotionScores_keys_nodup text) hq hpb hqb, h1]
            omega
          · rw [h0 q hq hqa hqb]
            omega
      · exact h3 ▸ mem_le_listMax hpa
    simp only [specConfidence, hsum, hmax]
    norm_num [min_def]
  · intro p hp h2 h0
    rw [detectWithKeywords_snd]
    have hsum : ((emotionScores text).map Prod.snd).sum = 2 := by
      rw [sum_eq_of_unique hp (emotionScores_keys_nodup text) h0, h2]
    have hmax : listMax (emotionScores text) = 2 := by
      apply Nat.le_antisymm
      · apply listMax_le
        intro q hq
        by_cases hqe : q.1 = p.1
        · rw [key_unique (emotionScores_keys_nodup text) hq hp hqe, h2]
        · rw [h0 q hq hqe]
          omega
      · exact h2 ▸ mem_le_listMax hp
    simp only [specConfidence, hsum, hmax]
    norm_num [min_def]

/-- Witness for C6: counts 3 (joy) and 1 (sadness) give confidence 0.8, and
the spec scenario text with two fear keywords gives confidence 0.9. -/
theorem claim_C6_witness :
    (detectWithKeywords "happy glad joy sad").2 = (0.8 : ℚ)
    ∧ (detectWithKeywords "I am so scared and terrified of my exam tomorrow").2 = (0.9 : ℚ) :=
  ⟨(claim_C6_confidence "happy glad joy sad").2.1 ("joy", 3) ("sadness", 1)
      (by decide) (by decide) (by decide) rfl rfl (by decide),
   (claim_C6_confidence "I am so scared and terrified of my exam tomorrow").2.2 ("fear", 2)
      (by decide) rfl (by decide)⟩

/-- C7: every emotion label the keyword-fallback classifier can produce —
the winner for an arbitrary text, and in particular every key of
`EMOTION_KEYWORDS` together with the neutral default — is a key of both
`THERAPY_TECHNIQUES` and `EMPATHETIC_RESPONSES`. -/
theorem claim_C7_classifier_labels_are_table_keys :
    (∀ text : String,
      (lookupTable THERAPY_TECHNIQUES (detectWithKeywords text).1).isSome
      ∧ (lookupTable EMPATHETIC_RESPONSES (detectWithKeywords text).1).isSome)
    ∧ ((EMOTION_KEYWORDS.map Prod.fst ++ ["neutral"]).all
        (fun e => (lookupTable THERAPY_TECHNIQUES e).isSome
          && (lookupTable EMPATHETIC_RESPONSES e).isSome)) = true := by
  constructor
  · intro text
    have hw := winner_mem_labels text
    simp only [List.mem_cons, List.not_mem_nil, or_false] at hw
    rcases hw with h | h | h | h | h <;> rw [h] <;> exact ⟨by decide, by decide⟩
  · decide

/-- The default-to-neutral guard of the coping-strategy handler always
lands on a key of the technique table, with a nonempty technique list. -/
lemma lookup_guard_key (m0 : String) :
    ∃ tl, lookupTable THERAPY_TECHNIQUES
        (if (lookupTable THERAPY_TECHNIQUES m0).isNone then "neutral" else m0) = some tl
      ∧ tl ≠ [] := by
  by_cases h : (lookupTable THERAPY_TECHNIQUES m0).isNone
  · rw [if_pos h]
    exact ⟨_, rfl, by decide⟩
  · rw [if_neg h]
    cases htl : lookupTable THERAPY_TECHNIQUES m0 with
    | none => rw [htl] at h; simp at h
    | some tl => exact ⟨tl, rfl, lookupTHERAPY_ne_nil htl⟩

/-- The emotion used by the coping-strategy handler is always a key of the
technique table, with a nonempty technique list. -/
lemma mappedEmotionOf_key (slot : Option String) :
    ∃ tl, lookupTable THERAPY_TECHNIQUES (mappedEmotionOf slot) = some tl ∧ tl ≠ [] :=
  lookup_guard_key _

/-- C10: for every stored emotion-slot value (and every random draw), the
coping-strategy handler completes and returns an empty event list: it
never writes any slot, in particular not the normalized emotion. -/
theorem claim_C10_suggest_returns_no_events (rand : RandDraws) (slot : Option String) :
    ∃ hr, suggestCopingStrategy_run rand slot = Except.ok hr ∧ hr.events = [] := by
  obtain ⟨tl, htl, htlne⟩ := mappedEmotionOf_key slot
  have hdg : dictGet THERAPY_TECHNIQUES (mappedEmotionOf slot) = Except.ok tl := by
    unfold dictGet
    rw [htl]
  unfold suggestCopingStrategy_run
  rw [hdg]
  dsimp only
  obtain ⟨t, ht, _⟩ := choiceE_mem tl rand.i1 htlne
  rw [ht]
  exact ⟨_, rfl, rfl⟩

/-- C9: synonym normalization is total — each of sad, angry, anxious,
afraid, happy, excited maps to a key of both response tables — and for
every slot value (missing, empty, recognized or not) the coping-strategy
handler never index-errors and utters exactly one message consisting of
the fixed introduction for the mapped emotion and a technique drawn from
the technique list of that emotion. -/
theorem claim_C9_coping_strategy (rand : RandDraws) (slot : Option String) :
    (∀ s, s ∈ (["sad", "angry", "anxious", "afraid", "happy", "excited"] : List String) →
      (lookupTable THERAPY_TECHNIQUES ((lookupSyn s).getD s)).isSome
      ∧ (lookupTable EMPATHETIC_RESPONSES ((lookupSyn s).getD s)).isSome)
    ∧ (∃ hr tl t, suggestCopingStrategy_run rand slot = Except.ok hr
        ∧ lookupTable THERAPY_TECHNIQUES (mappedEmotionOf slot) = some tl
        ∧ t ∈ tl
        ∧ hr.messages = [introFor (mappedEmotionOf slot) ++ "\n\n" ++ t]) := by
  constructor
  · intro s hs
    fin_cases hs <;> exact ⟨by decide, by decide⟩
  · obtain ⟨tl, htl, htlne⟩ := mappedEmotionOf_key slot
    have hdg : dictGet THERAPY_TECHNIQUES (mappedEmotionOf slot) = Except.ok tl := by
      unfold dictGet
      rw [htl]
    unfold suggestCopingStrategy_run
    rw [hdg]
    dsimp only
    obtain ⟨t, ht, htm⟩ := choiceE_mem tl rand.i1 htlne
    rw [ht]
    exact ⟨_, tl, t, rfl, htl, htm, rfl⟩

/-- Witness for C9 at the synonym sad. -/
theorem claim_C9_witness :
    (lookupTable THERAPY_TECHNIQUES ((lookupSyn "sad").getD "sad")).isSome
    ∧ (lookupTable EMPATHETIC_RESPONSES ((lookupSyn "sad").getD "sad")).isSome :=
  (claim_C9_coping_strategy ⟨true, true, 0, 0, 0⟩ (some "sad")).1 "sad" (by decide)

/-- C8: whenever the intent confidence is at least 0.3 (so not below the
0.3 threshold), `ActionProcessMessage.run` emits no message and returns
exactly one event, the `detected_emotion` slot update. -/
theorem claim_C8_high_confidence_slot_only (rand : RandDraws) (api : ApiOutcome)
    (m : ModelOutcome) (latest_message : String) (confidence : ℚ)
    (h : ¬ confidence < (0.3 : ℚ)) :
    actionProcessMessage_run rand api m latest_message confidence =
      Except.ok
        { messages := [],
          events := [("detected_emotion", (detect_emotion m latest_message).emotion)] } := by
  unfold actionProcessMessage_run
  rw [if_neg h]

/-- Witness for C8 at intent confidence exactly 0.3. -/
theorem claim_C8_witness :
    ¬ ((0.3 : ℚ) < 0.3)
    ∧ actionProcessMessage_run ⟨true, true, 0, 0, 0⟩ ApiOutcome.exn ModelOutcome.noModel
        "hello" 0.3 =
      Except.ok
        { messages := [],
          events := [("detected_emotion",
            (detect_emotion ModelOutcome.noModel "hello").emotion)] } :=
  ⟨lt_irrefl _,
   claim_C8_high_confidence_slot_only ⟨true, true, 0, 0, 0⟩ ApiOutcome.exn ModelOutcome.noModel
     "hello" 0.3 (lt_irrefl _)⟩

/-- Every completed run of `_call_fallback_api` returns exactly the
`detected_emotion` slot update, in every branch. -/
lemma call_fallback_api_events (rand : RandDraws) (api : ApiOutcome)
    (message emotion : String) (hr : HandlerResult)
    (h : call_fallback_api rand api message emotion = Except.ok hr) :
    hr.events = [("detected_emotion", emotion)] := by
  unfold call_fallback_api at h
  by_cases hb : (rand.below70 && (lookupTable EMPATHETIC_RESPONSES emotion).isSome) = true
  · rw [if_pos hb] at h
    cases hdg : dictGet EMPATHETIC_RESPONSES emotion with
    | error e => rw [hdg] at h; exact absurd h (by simp)
    | ok l =>
        rw [hdg] at h
        dsimp only at h
        cases hc : choiceE l rand.i1 with
        | error e => rw [hc] at h; exact absurd h (by simp)
        | ok s =>
            rw [hc] at h
            dsimp only at h
            by_cases hcond : (emotion = "sadness" ∨ emotion = "anger" ∨ emotion = "fear")
                ∧ rand.below50 = true
            · rw [if_pos hcond] at h
              cases hdg2 : dictGet THERAPY_TECHNIQUES emotion with
              | error e => rw [hdg2] at h; exact absurd h (by simp)
              | ok tl =>
                  rw [hdg2] at h
                  dsimp only at h
                  cases hc2 : choiceE tl rand.i2 with
                  | error e => rw [hc2] at h; exact absurd h (by simp)
                  | ok t =>
                      rw [hc2] at h
                      dsimp only at h
                      injection h with h2
                      rw [← h2]
            · rw [if_neg hcond] at h
              injection h with h2
              rw [← h2]
  · rw [if_neg hb] at h
    cases hfb : fallback_try_block rand api emotion with
    | ok msgs =>
        rw [hfb] at h
        dsimp only at h
        injection h with h2
        rw [← h2]
    | error e =>
        rw [hfb] at h
        dsimp only at h
        cases hdg : dictGet EMPATHETIC_RESPONSES emotion with
        | error e2 => rw [hdg] at h; exact absurd h (by simp)
        | ok l =>
            rw [hdg] at h
            dsimp only at h
            cases hc : choiceE l rand.iF with
            | error e2 => rw [hc] at h; exact absurd h (by simp)
            | ok s =>
                rw [hc] at h
                dsimp only at h
                injection h with h2
                rw [← h2]

/-- The `ActionFallbackAPI` body completes without raising for every
emotion, and always returns exactly the `detected_emotion` slot update. -/
lemma actionFallbackAPI_core_ok (rand : RandDraws) (api : ApiOutcome) (emotion : String) :
    ∃ hr, actionFallbackAPI_core rand api emotion = Except.ok hr
      ∧ hr.events = [("detected_emotion", emotion)] := by
  unfold actionFallbackAPI_core
  by_cases hb : (rand.below70 && (lookupTable EMPATHETIC_RESPONSES emotion).isSome) = true
  · rw [if_pos hb]
    have hsome : (lookupTable EMPATHETIC_RESPONSES emotion).isSome :=
      ((Bool.and_eq_true _ _).mp hb).2
    obtain ⟨l, hl⟩ := Option.isSome_iff_exists.mp hsome
    have hdg : dictGet EMPATHETIC_RESPONSES emotion = Except.ok l := by
      unfold dictGet
      rw [hl]
    rw [hdg]
    dsimp only
    obtain ⟨s, hs, _⟩ := choiceE_mem l rand.i1 (lookupEMPATHETIC_ne_nil hl)
    rw [hs]
    exact ⟨_, rfl, rfl⟩
  · rw [if_neg hb]
    cases api with
    | exn => exact ⟨_, rfl, rfl⟩
    | ok status hasChoices content =>
        dsimp only
        by_cases hsucc : status = 200 ∧ hasChoices = true
        · rw [if_pos hsucc]
          exact ⟨_, rfl, rfl⟩
        · rw [if_neg hsucc]
          exact ⟨_, rfl, rfl⟩

/-- When the 70% draw is not taken and the remote call fails, the
`ActionFallbackAPI` body utters one of the two fixed generic strings. -/
lemma actionFallbackAPI_core_failure (rand : RandDraws) (api : ApiOutcome) (emotion : String)
    (hb : rand.below70 = false) (hfail : apiFails api) :
    ∃ hr, actionFallbackAPI_core rand api emotion = Except.ok hr
      ∧ (hr.messages =
          ["I\x27m having trouble processing your request right now. Let\x27s try something else."]
        ∨ hr.messages =
          ["I\x27m not sure how to respond to that. Could you rephrase or ask something else?"]) := by
  unfold actionFallbackAPI_core
  have hbf : (rand.below70 && (lookupTable EMPATHETIC_RESPONSES emotion).isSome) = false := by
    rw [hb]
    rfl
  rw [hbf]
  simp only [Bool.false_eq_true, if_false]
  cases api with
  | exn => exact ⟨_, rfl, Or.inl rfl⟩
  | ok status hasChoices content =>
      dsimp only
      have hns : ¬ (status = 200 ∧ hasChoices = true) := hfail
      rw [if_neg hns]
      exact ⟨_, rfl, Or.inr rfl⟩

/-- C1 counterexample: with the detected emotion disgust (not one of the
five canonical labels) and a failing remote call, the fallback-API
selection of `_call_fallback_api` raises a `KeyError` instead of falling
back to the neutral table. -/
theorem claim_C1_counterexample :
    call_fallback_api ⟨false, false, 0, 0, 0⟩ ApiOutcome.exn "msg" "disgust" =
      Except.error "KeyError" := by rfl

/-- C1 amended: for each of the five canonical labels every branch of
`_call_fallback_api` completes without raising; but for a label that is
not a key of the empathetic table, only a successful remote call completes
— the remote-API error branch and the exception branch raise a `KeyError`;
there is no fallback to the neutral table. -/
theorem claim_C1_selection_totality (rand : RandDraws) (api : ApiOutcome)
    (message emotion : String) :
    (emotion ∈ (["joy", "sadness", "anger", "fear", "neutral"] : List String) →
      ∃ hr, call_fallback_api rand api message emotion = Except.ok hr)
    ∧ (lookupTable EMPATHETIC_RESPONSES emotion = none → apiFails api →
        call_fallback_api rand api message emotion = Except.error "KeyError")
    ∧ (lookupTable EMPATHETIC_RESPONSES emotion = none →
        ∀ content, api = ApiOutcome.ok 200 true content →
          call_fallback_api rand api message emotion =
            Except.ok { messages := [content], events := [("detected_emotion", emotion)] }) := by
  refine ⟨?_, ?_, ?_⟩
  · intro hmem
    have hsome : (lookupTable EMPATHETIC_RESPONSES emotion).isSome := by
      simp only [List.mem_cons, List.not_mem_nil, or_false] at hmem
      rcases hmem with h | h | h | h | h <;> rw [h] <;> decide
    obtain ⟨hr, hh, _⟩ := call_fallback_api_ok rand api message emotion hsome
    exact ⟨hr, hh⟩
  · intro hnone hfail
    have hdg : dictGet EMPATHETIC_RESPONSES emotion = Except.error "KeyError" := by
      unfold dictGet
      rw [hnone]
    have hbf : (rand.below70 && (lookupTable EMPATHETIC_RESPONSES emotion).isSome) = false := by
      rw [hnone]
      simp
    unfold call_fallback_api
    rw [hbf]
    simp only [Bool.false_eq_true, if_false]
    cases api with
    | exn =>
        have hfb : fallback_try_block rand ApiOutcome.exn emotion =
            Except.error "RequestException" := rfl
        rw [hfb]
        dsimp only
        rw [hdg]
    | ok status hasChoices content =>
        have hns : ¬ (status = 200 ∧ hasChoices = true) := hfail
        have hfb : fallback_try_block rand (ApiOutcome.ok status hasChoices content) emotion =
            Except.error "KeyError" := by
          unfold fallback_try_block
          dsimp only
          rw [if_neg hns, hdg]
        rw [hfb]
        dsimp only
        rw [hdg]
  · intro hnone content hapi
    subst hapi
    have hbf : (rand.below70 && (lookupTable EMPATHETIC_RESPONSES emotion).isSome) = false := by
      rw [hnone]
      simp
    unfold call_fallback_api
    rw [hbf]
    simp only [Bool.false_eq_true, if_false]
    have hfb : fallback_try_block rand (ApiOutcome.ok 200 true content) emotion =
        Except.ok [content] := by
      unfold fallback_try_block
      dsimp only
      rw [if_pos ⟨rfl, rfl⟩]
    rw [hfb]

/-- Witness for C1: the canonical label joy completes even on an API
exception, while the non-canonical label surprise raises on the same
exception. -/
theorem claim_C1_witness :
    (∃ hr, call_fallback_api ⟨true, true, 0, 0, 0⟩ ApiOutcome.exn "m" "joy" = Except.ok hr)
    ∧ call_fallback_api ⟨true, true, 0, 0, 0⟩ ApiOutcome.exn "m" "surprise" =
        Except.error "KeyError" :=
  ⟨(claim_C1_selection_totality ⟨true, true, 0, 0, 0⟩ ApiOutcome.exn "m" "joy").1 (by decide),
   (claim_C1_selection_totality ⟨true, true, 0, 0, 0⟩ ApiOutcome.exn "m" "surprise").2.1
     (by decide) trivial⟩

/-- C3 counterexample: `ActionFallbackAPI.run` on an API exception (with
the 70% draw not taken) utters the fixed trouble-processing string, which
is not an element of the empathetic-response list of the detected neutral
emotion — not a uniformly random empathetic string as the claim states. -/
theorem claim_C3_counterexample :
    actionFallbackAPI_run ⟨false, false, 0, 0, 0⟩ ApiOutcome.exn ModelOutcome.noModel "" =
      Except.ok
        { messages :=
            ["I\x27m having trouble processing your request right now. Let\x27s try something else."],
          events := [("detected_emotion", "neutral")] }
    ∧ "I\x27m having trouble processing your request right now. Let\x27s try something else."
        ∉ (lookupTable EMPATHETIC_RESPONSES "neutral").getD [] :=
  ⟨rfl, by decide⟩

/-- C3 amended: on the ProcessMessage low-confidence path a failing remote
call yields one message drawn from the empathetic list of the detected
emotion (when that emotion is a table key), and every completed branch of
`_call_fallback_api` returns the `detected_emotion` slot update; the
FallbackAPI handler also returns the slot update in every branch, but on a
failing remote call it utters one of two fixed generic strings instead of
an empathetic one. -/
theorem claim_C3_remote_failure_policy (rand : RandDraws) (api : ApiOutcome)
    (m : ModelOutcome) (msg : String) :
    (∀ emotion l, rand.below70 = false →
      lookupTable EMPATHETIC_RESPONSES emotion = some l → apiFails api →
      ∃ s ∈ l, call_fallback_api rand api msg emotion =
        Except.ok { messages := [s], events := [("detected_emotion", emotion)] })
    ∧ (∀ emotion hr, call_fallback_api rand api msg emotion = Except.ok hr →
        hr.events = [("detected_emotion", emotion)])
    ∧ (∃ hr, actionFallbackAPI_run rand api m msg = Except.ok hr
        ∧ hr.events = [("detected_emotion", (detect_emotion m msg).emotion)])
    ∧ (rand.below70 = false → apiFails api →
        ∃ hr, actionFallbackAPI_run rand api m msg = Except.ok hr
          ∧ (hr.messages =
              ["I\x27m having trouble processing your request right now. Let\x27s try something else."]
            ∨ hr.messages =
              ["I\x27m not sure how to respond to that. Could you rephrase or ask something else?"])) := by
  refine ⟨?_, ?_, ?_, ?_⟩
  · intro emotion l hb hl hfail
    exact call_fallback_api_failure rand api msg emotion hb hl hfail
  · intro emotion hr h
    exact call_fallback_api_events rand api msg emotion hr h
  · exact actionFallbackAPI_core_ok rand api (detect_emotion m msg).emotion
  · intro hb hfail
    exact actionFallbackAPI_core_failure rand api (detect_emotion m msg).emotion hb hfail

/-- Witness for C3: with the detected emotion neutral, an API exception on
the ProcessMessage path yields a message from the neutral empathetic list,
and on the FallbackAPI path yields one of the two generic strings. -/
theorem claim_C3_witness :
    (∃ s ∈ ["I\x27m here to support you, whatever you might be feeling right now.",
            "How are you feeling about everything that\x27s going on?",
            "I\x27m listening and here to help in any way I can.",
            "Would you like to explore any particular thoughts or feelings today?",
            "Sometimes taking a moment to check in with ourselves can be helpful. How are you really doing?"],
      call_fallback_api ⟨false, false, 0, 0, 0⟩ ApiOutcome.exn "hi" "neutral" =
        Except.ok { messages := [s], events := [("detected_emotion", "neutral")] })
    ∧ (∃ hr, actionFallbackAPI_run ⟨false, false, 0, 0, 0⟩ ApiOutcome.exn ModelOutcome.noModel "hi" =
          Except.ok hr
        ∧ (hr.messages =
            ["I\x27m having trouble processing your request right now. Let\x27s try something else."]
          ∨ hr.messages =
            ["I\x27m not sure how to respond to that. Could you rephrase or ask something else?"])) :=
  ⟨(claim_C3_remote_failure_policy ⟨false, false, 0, 0, 0⟩ ApiOutcome.exn ModelOutcome.noModel
      "hi").1 "neutral" _ rfl rfl trivial,
   (claim_C3_remote_failure_policy ⟨false, false, 0, 0, 0⟩ ApiOutcome.exn ModelOutcome.noModel
      "hi").2.2.2 rfl trivial⟩
